import Mathlib

/-!
Shallow embedding of the OAuth authorization-server core of
`att_server_python` (files `oauth_providers/custom.py`,
`oauth_providers/google.py`, `oauth_providers/base.py`,
`oauth_providers/persistent_store.py`, and the OAuth HTTP handlers in
`main.py`).

Python dictionaries are modelled as association lists over `String` keys
with overwrite-on-assignment semantics; `time.time()` is an explicit
`now : Int` parameter; the random strings produced by
`secrets.token_urlsafe` are explicit parameters of the operations that
mint them; `async` methods are pure functions threading the store.
-/

namespace OAuthServer

/-- Python's `str.startswith`, evaluated structurally on the character lists
(the standard library's `String.startsWith` is defined by well-founded
recursion and does not reduce inside the kernel). -/
def startswith (s pre : String) : Bool := pre.data.isPrefixOf s.data

/-- `d.get(k)` on a Python dict modelled as an association list. -/
def lookupA {α : Type} (k : String) : List (String × α) → Option α
  | [] => none
  | (k', v) :: rest => if k' = k then some v else lookupA k rest

/-- `del d[k]` on a Python dict: drop every binding of `k`. -/
def eraseA {α : Type} (k : String) : List (String × α) → List (String × α)
  | [] => []
  | p :: rest => if p.1 = k then eraseA k rest else p :: eraseA k rest

/-- `d[k] = v` on a Python dict: overwrite any old binding of `k`. -/
def insertA {α : Type} (k : String) (v : α) (l : List (String × α)) : List (String × α) :=
  (k, v) :: eraseA k l

/-- `mcp.shared.auth.OAuthClientInformationFull` (the fields this server reads). -/
structure OAuthClientInformationFull where
  client_id : String
  client_name : Option String := none
  redirect_uris : List String
  grant_types : List String := ["authorization_code", "refresh_token"]
  scope : Option String := none
  client_secret_hash : Option String := none
deriving Repr, DecidableEq

/-- `mcp.server.auth.provider.AuthorizationCode`.  The `orig_state` field models
the `_original_state` attribute the Google/Azure adapters attach to a pending
record via `setattr` (an explicit optional field in this embedding). -/
structure AuthorizationCode where
  code : String
  scopes : List String
  expires_at : Int
  client_id : String
  code_challenge : String
  redirect_uri : String
  redirect_uri_provided_explicitly : Bool
  resource : Option String := none
  orig_state : Option String := none
deriving Repr, DecidableEq

/-- `mcp.server.auth.provider.AccessToken`. -/
structure AccessToken where
  token : String
  client_id : String
  scopes : List String
  expires_at : Int
  resource : Option String := none
deriving Repr, DecidableEq

/-- `mcp.server.auth.provider.RefreshToken`. -/
structure RefreshToken where
  token : String
  client_id : String
  scopes : List String
  expires_at : Int
deriving Repr, DecidableEq

/-- `mcp.shared.auth.OAuthToken`: the JSON body of a successful `/token` response. -/
structure OAuthToken where
  access_token : String
  token_type : String
  expires_in : Int
  refresh_token : String
  scope : String
deriving Repr, DecidableEq

/-- `mcp.server.auth.provider.AuthorizeError`. -/
structure AuthorizeError where
  error : String
  error_description : String
deriving Repr, DecidableEq

/-- `oauth_providers.base.ProviderConfig` (the fields the modelled code reads). -/
structure ProviderConfig where
  issuer_url : String
  valid_scopes : List String := ["read", "write", "payment", "account"]
  default_scopes : List String := ["read"]
  access_token_ttl : Int := 3600
  refresh_token_ttl : Int := 86400
  auth_code_ttl : Int := 600
deriving Repr, DecidableEq

/-- `mcp.server.auth.provider.AuthorizationParams` (the fields this server reads). -/
structure AuthorizationParams where
  scopes : Option (List String)
  redirect_uri : String
  redirect_uri_provided_explicitly : Bool
  code_challenge : String
  state : Option String
  resource : Option String := none
deriving Repr, DecidableEq

/-- The four dictionaries of `PersistentStore` (= `InMemoryStore`): clients,
auth codes (incl. `pending_...` / `state_...` entries), access and refresh
tokens, each keyed by its string primary key. -/
structure Store where
  clients : List (String × OAuthClientInformationFull) := []
  auth_codes : List (String × AuthorizationCode) := []
  access_tokens : List (String × AccessToken) := []
  refresh_tokens : List (String × RefreshToken) := []
deriving Repr, DecidableEq

/-- `PersistentStore.save_auth_code`. -/
def Store.save_auth_code (s : Store) (key : String) (code : AuthorizationCode) : Store :=
  { s with auth_codes := insertA key code s.auth_codes }

/-- `PersistentStore.delete_auth_code`. -/
def Store.delete_auth_code (s : Store) (key : String) : Store :=
  { s with auth_codes := eraseA key s.auth_codes }

/-- `PersistentStore.add_access_token`. -/
def Store.add_access_token (s : Store) (t : AccessToken) : Store :=
  { s with access_tokens := insertA t.token t s.access_tokens }

/-- `PersistentStore.add_refresh_token`. -/
def Store.add_refresh_token (s : Store) (t : RefreshToken) : Store :=
  { s with refresh_tokens := insertA t.token t s.refresh_tokens }

/-- `PersistentStore.remove_access_token`. -/
def Store.remove_access_token (s : Store) (tok : String) : Store :=
  { s with access_tokens := eraseA tok s.access_tokens }

/-- `PersistentStore.remove_refresh_token`. -/
def Store.remove_refresh_token (s : Store) (tok : String) : Store :=
  { s with refresh_tokens := eraseA tok s.refresh_tokens }

/-- `BaseOAuthProvider.validate_scopes`: with no requested scopes return the
configured defaults; otherwise keep only whitelisted scopes, falling back to
the defaults when none survive.  Python's `if not requested_scopes` is true
both for `None` and for the empty list. -/
def validate_scopes (cfg : ProviderConfig) (requested_scopes : Option (List String)) :
    List String :=
  match requested_scopes with
  | none => cfg.default_scopes
  | some rs =>
    if rs.isEmpty then cfg.default_scopes
    else if (rs.filter (fun x => cfg.valid_scopes.contains x)).isEmpty then
      cfg.default_scopes
    else rs.filter (fun x => cfg.valid_scopes.contains x)

/-- A front-channel redirect: the base `redirect_uri` plus the query
parameters appended to it, in order. -/
structure Redirect where
  base : String
  params : List (String × String)
deriving Repr, DecidableEq

/-- Modelled from the spec: `construct_redirect_uri` from the MCP auth
library (`mcp.server.auth.provider`, not under `src/`); it appends each
keyword parameter whose value is not `None` to the redirect URI's query
string, in the order given. -/
def construct_redirect_uri (redirect_uri_base : String)
    (params : List (String × Option String)) : Redirect :=
  { base := redirect_uri_base
    params := params.filterMap (fun p => p.2.map (fun v => (p.1, v))) }

/-- The query parameters of the login-page URL returned by
`InMemoryOAuthProvider.authorize` (the dict passed to `urlencode`). -/
structure LoginRedirect where
  client_id : String
  redirect_uri : String
  scope : String
  state : String
  code_challenge : String
  temp_key : String
deriving Repr, DecidableEq

namespace InMemoryOAuthProvider

/-- `InMemoryOAuthProvider.authorize` (custom.py).  `temp_key` is the fresh
random key minted by `self._generate_token(32)`. -/
def authorize (cfg : ProviderConfig) (client : OAuthClientInformationFull)
    (params : AuthorizationParams) (temp_key : String) (now : Int) (s : Store) :
    Except AuthorizeError (LoginRedirect × Store) :=
  let scopes := validate_scopes cfg params.scopes
  if params.redirect_uri ∉ client.redirect_uris then
    .error { error := "invalid_request", error_description := "Invalid redirect_uri" }
  else
    let expires_at := now + 600
    let pending_key := "pending_" ++ temp_key
    let auth_code : AuthorizationCode :=
      { code := temp_key, scopes := scopes, expires_at := expires_at
        client_id := client.client_id, code_challenge := params.code_challenge
        redirect_uri := params.redirect_uri
        redirect_uri_provided_explicitly := params.redirect_uri_provided_explicitly
        resource := params.resource }
    let s1 := s.save_auth_code pending_key auth_code
    let s2 :=
      match params.state with
      | some st =>
        if st = "" then s1
        else
          s1.save_auth_code ("state_" ++ temp_key)
            { code := st, scopes := [], expires_at := expires_at
              client_id := client.client_id, code_challenge := ""
              redirect_uri := params.redirect_uri
              redirect_uri_provided_explicitly := false }
      | none => s1
    .ok ({ client_id := client.client_id, redirect_uri := params.redirect_uri
           scope := String.intercalate " " scopes
           state := params.state.getD ""
           code_challenge := params.code_challenge, temp_key := temp_key }, s2)

/-- `InMemoryOAuthProvider.complete_authorization` (custom.py).  `new_code` is
the fresh code minted by `self._generate_token(160)` on approval. -/
def complete_authorization (cfg : ProviderConfig) (temp_key : String) (approved : Bool)
    (new_code : String) (now : Int) (s : Store) : Option Redirect × Store :=
  let pending_key := "pending_" ++ temp_key
  match lookupA pending_key s.auth_codes with
  | none => (none, s)
  | some pending_request =>
    let state_key := "state_" ++ temp_key
    let state_entry := lookupA state_key s.auth_codes
    let stored_state := state_entry.map (fun e => e.code)
    let s1 := s.delete_auth_code pending_key
    let s2 := if state_entry.isSome then s1.delete_auth_code state_key else s1
    if !approved then
      (some (construct_redirect_uri pending_request.redirect_uri
        [("error", some "access_denied"),
         ("error_description", some "User denied authorization"),
         ("state", stored_state)]), s2)
    else
      let expires_at := now + cfg.auth_code_ttl
      let auth_code : AuthorizationCode :=
        { code := new_code, scopes := pending_request.scopes, expires_at := expires_at
          client_id := pending_request.client_id
          code_challenge := pending_request.code_challenge
          redirect_uri := pending_request.redirect_uri
          redirect_uri_provided_explicitly := pending_request.redirect_uri_provided_explicitly
          resource := pending_request.resource }
      let s3 := s2.save_auth_code new_code auth_code
      (some (construct_redirect_uri pending_request.redirect_uri
        [("code", some new_code), ("state", stored_state)]), s3)

/-- `InMemoryOAuthProvider.load_authorization_code` (custom.py). -/
def load_authorization_code (client : OAuthClientInformationFull)
    (authorization_code : String) (now : Int) (s : Store) :
    Option AuthorizationCode × Store :=
  if startswith authorization_code "pending_" then (none, s)
  else
    match lookupA authorization_code s.auth_codes with
    | none => (none, s)
    | some auth_code =>
      if auth_code.client_id ≠ client.client_id then (none, s)
      else if auth_code.expires_at < now then
        (none, s.delete_auth_code authorization_code)
      else (some auth_code, s)

/-- `InMemoryOAuthProvider.exchange_authorization_code` (custom.py).
`access_token` and `refresh_token` are the fresh random strings minted by
`self._generate_token(256)`. -/
def exchange_authorization_code (cfg : ProviderConfig)
    (client : OAuthClientInformationFull) (authorization_code : AuthorizationCode)
    (access_token refresh_token : String) (now : Int) (s : Store) :
    OAuthToken × Store :=
  let s1 :=
    if (lookupA authorization_code.code s.auth_codes).isSome then
      s.delete_auth_code authorization_code.code
    else s
  let access_expires_at := now + cfg.access_token_ttl
  let refresh_expires_at := now + cfg.refresh_token_ttl
  let s2 := s1.add_access_token
    { token := access_token, client_id := client.client_id
      scopes := authorization_code.scopes, expires_at := access_expires_at
      resource := authorization_code.resource }
  let s3 := s2.add_refresh_token
    { token := refresh_token, client_id := client.client_id
      scopes := authorization_code.scopes, expires_at := refresh_expires_at }
  ({ access_token := access_token, token_type := "Bearer"
     expires_in := cfg.access_token_ttl, refresh_token := refresh_token
     scope := String.intercalate " " authorization_code.scopes }, s3)

/-- `InMemoryOAuthProvider.load_refresh_token` (custom.py). -/
def load_refresh_token (client : OAuthClientInformationFull)
    (refresh_token : String) (now : Int) (s : Store) :
    Option RefreshToken × Store :=
  match lookupA refresh_token s.refresh_tokens with
  | none => (none, s)
  | some token =>
    if token.client_id ≠ client.client_id then (none, s)
    else if token.expires_at < now then (none, s.remove_refresh_token refresh_token)
    else (some token, s)

/-- `InMemoryOAuthProvider.exchange_refresh_token` (custom.py).
`new_access_token` and `new_refresh_token` are the fresh random strings
minted by `self._generate_token(256)`.  Python's `if requested_scopes:` is
false both for `None` and for the empty list. -/
def exchange_refresh_token (cfg : ProviderConfig)
    (client : OAuthClientInformationFull) (refresh_token : RefreshToken)
    (requested_scopes : Option (List String))
    (new_access_token new_refresh_token : String) (now : Int) (s : Store) :
    OAuthToken × Store :=
  let granted_scopes :=
    match requested_scopes with
    | some rs =>
      if rs.isEmpty then refresh_token.scopes
      else rs.filter (fun x => refresh_token.scopes.contains x)
    | none => refresh_token.scopes
  let access_expires_at := now + cfg.access_token_ttl
  let refresh_expires_at := now + cfg.refresh_token_ttl
  let s1 := s.add_access_token
    { token := new_access_token, client_id := client.client_id
      scopes := granted_scopes, expires_at := access_expires_at }
  let s2 := s1.add_refresh_token
    { token := new_refresh_token, client_id := client.client_id
      scopes := granted_scopes, expires_at := refresh_expires_at }
  let s3 :=
    if (lookupA refresh_token.token s2.refresh_tokens).isSome then
      s2.remove_refresh_token refresh_token.token
    else s2
  ({ access_token := new_access_token, token_type := "Bearer"
     expires_in := cfg.access_token_ttl, refresh_token := new_refresh_token
     scope := String.intercalate " " granted_scopes }, s3)

end InMemoryOAuthProvider

namespace GoogleOAuthProvider

/-- The query parameters of the upstream Google authorization URL built by
`GoogleOAuthProvider.authorize` (the `google_params` dict). -/
structure GoogleAuthRedirect where
  client_id : Option String
  redirect_uri : String
  response_type : String
  scope : String
  state : String
  access_type : String
  prompt : String
deriving Repr, DecidableEq

/-- `GoogleOAuthProvider.authorize` (google.py): stores the pending request
(with the caller's `state` attached as `_original_state`) and redirects to
Google, passing `temp_key` as the upstream `state`. -/
def authorize (cfg : ProviderConfig) (upstream_client_id : Option String)
    (client : OAuthClientInformationFull) (params : AuthorizationParams)
    (temp_key : String) (now : Int) (s : Store) :
    Except AuthorizeError (GoogleAuthRedirect × Store) :=
  let scopes := validate_scopes cfg params.scopes
  if params.redirect_uri ∉ client.redirect_uris then
    .error { error := "invalid_request", error_description := "Invalid redirect_uri" }
  else
    let pending_auth : AuthorizationCode :=
      { code := temp_key, scopes := scopes, expires_at := now + 600
        client_id := client.client_id, code_challenge := params.code_challenge
        redirect_uri := params.redirect_uri
        redirect_uri_provided_explicitly := params.redirect_uri_provided_explicitly
        resource := params.resource
        orig_state := params.state }
    let s1 := { s with auth_codes := insertA ("pending_" ++ temp_key) pending_auth s.auth_codes }
    .ok ({ client_id := upstream_client_id
           redirect_uri := cfg.issuer_url ++ "/oauth/google/callback"
           response_type := "code", scope := "openid email profile"
           state := temp_key, access_type := "offline", prompt := "consent" }, s1)

/-- `GoogleOAuthProvider.complete_authorization` (google.py).  `new_code` is
the fresh code minted by `secrets.token_urlsafe(40)` on approval.  Unlike the
custom adapter it reads the original state from the pending record's
`_original_state` attribute, and its denial redirect passes no `state`. -/
def complete_authorization (cfg : ProviderConfig) (temp_key : String)
    (approved : Bool) (new_code : String) (now : Int) (s : Store) :
    Option Redirect × Store :=
  let pending_key := "pending_" ++ temp_key
  match lookupA pending_key s.auth_codes with
  | none => (none, s)
  | some pending_request =>
    let s1 := { s with auth_codes := eraseA pending_key s.auth_codes }
    if !approved then
      (some (construct_redirect_uri pending_request.redirect_uri
        [("error", some "access_denied"),
         ("error_description", some "User denied authorization")]), s1)
    else
      let expires_at := now + cfg.auth_code_ttl
      let auth_code : AuthorizationCode :=
        { code := new_code, scopes := pending_request.scopes, expires_at := expires_at
          client_id := pending_request.client_id
          code_challenge := pending_request.code_challenge
          redirect_uri := pending_request.redirect_uri
          redirect_uri_provided_explicitly := pending_request.redirect_uri_provided_explicitly
          resource := pending_request.resource }
      let s2 := { s1 with auth_codes := insertA new_code auth_code s1.auth_codes }
      let original_state := pending_request.orig_state
      (some (construct_redirect_uri pending_request.redirect_uri
        [("code", some new_code), ("state", original_state)]), s2)

end GoogleOAuthProvider

/-- `PersistentStore.clear_expired_tokens` (persistent_store.py): the source
collects every key whose record satisfies
`not key.startswith("pending_") and record.expires_at < now` (for auth codes)
or `record.expires_at < now` (for access and refresh tokens) and deletes each
collected key; deleting exactly those keys keeps the complement. -/
def Store.clear_expired_tokens (s : Store) (now : Int) : Store :=
  { s with
    auth_codes := s.auth_codes.filter
      (fun p => !(!(startswith p.1 "pending_") && decide (p.2.expires_at < now)))
    access_tokens := s.access_tokens.filter
      (fun p => !(decide (p.2.expires_at < now)))
    refresh_tokens := s.refresh_tokens.filter
      (fun p => !(decide (p.2.expires_at < now))) }

/-- `PersistentStore.register_client` (persistent_store.py): a client whose
`scope` is `None` is rebuilt with the hard-coded default-scope string before
being stored. -/
def Store.register_client (s : Store) (client : OAuthClientInformationFull) : Store :=
  let client :=
    if client.scope.isNone then { client with scope := some "read write payment account" }
    else client
  { s with clients := insertA client.client_id client s.clients }

/-- A raw `clients.json` record as read by `PersistentStore._load_clients`:
`grant_types` and `scope` may be absent (`None`). -/
structure ClientJson where
  client_id : String
  client_name : Option String := none
  redirect_uris : List String
  grant_types : Option (List String) := none
  scope : Option String := none
  client_secret_hash : Option String := none
deriving Repr, DecidableEq

/-- The per-record conversion inside `PersistentStore._load_clients`: backfills
a missing `grant_types` with `["authorization_code", "refresh_token"]` and a
missing `scope` with the hard-coded string `"read write payment account"`. -/
def load_client (cj : ClientJson) : OAuthClientInformationFull :=
  { client_id := cj.client_id
    client_name := cj.client_name
    redirect_uris := cj.redirect_uris
    grant_types := cj.grant_types.getD ["authorization_code", "refresh_token"]
    scope := some (cj.scope.getD "read write payment account")
    client_secret_hash := cj.client_secret_hash }

/-- The default of the `OAUTH_DEFAULT_SCOPES` configuration option
(main.py line 49: `os.environ.get('OAUTH_DEFAULT_SCOPES', 'read').split(',')`). -/
def OAUTH_DEFAULT_SCOPES : List String := ["read"]

/-- An HTTP response as produced by the consent handlers in main.py: either a
rendered HTML page with a status code, or a redirect. -/
inductive HttpResponse where
  | html (status : Nat) (body : String)
  | redirectTo (status : Nat) (url : Redirect)
deriving Repr, DecidableEq

/-- The HTTP status code of a response. -/
def HttpResponse.statusCode : HttpResponse → Nat
  | .html st _ => st
  | .redirectTo st _ => st

/-- `oauth_authorize_approve` (main.py): the `/oauth/authorize/approve` form
handler for the local adapter.  When `complete_authorization` yields no
redirect (duplicate or expired temp-key) it answers HTTP 200 with an
already-processed page. -/
def oauth_authorize_approve (cfg : ProviderConfig) (form_temp_key : Option String)
    (approved : Bool) (new_code : String) (now : Int) (s : Store) :
    HttpResponse × Store :=
  match form_temp_key with
  | none => (.html 400 "Error: Missing temp_key", s)
  | some temp_key =>
    let r := InMemoryOAuthProvider.complete_authorization cfg temp_key approved new_code now s
    match r.1 with
    | none => (.html 200 "Authorization Already Processed", r.2)
    | some redirect_url => (.redirectTo 302 redirect_url, r.2)

/-- `oauth_consent_approve` (main.py): the `/oauth/consent/approve` form
handler for the federated adapters.  When `complete_authorization` yields no
redirect it answers HTTP 400. -/
def oauth_consent_approve (cfg : ProviderConfig) (form_temp_key : Option String)
    (approved : Bool) (new_code : String) (now : Int) (s : Store) :
    HttpResponse × Store :=
  match form_temp_key with
  | none => (.html 400 "Error: Missing temp_key", s)
  | some temp_key =>
    let r := GoogleOAuthProvider.complete_authorization cfg temp_key approved new_code now s
    match r.1 with
    | none => (.html 400 "Error: Authorization request expired or invalid", r.2)
    | some redirect_url => (.redirectTo 302 redirect_url, r.2)

/-! ### Concrete sample data used to evaluate the operations on closed inputs -/

/-- A sample provider configuration (all defaults, as in `create_provider_from_env`). -/
def cfgC : ProviderConfig := { issuer_url := "http://localhost:8000" }

/-- A sample registered client. -/
def clientC : OAuthClientInformationFull :=
  { client_id := "cid", client_name := some "ChatGPT"
    redirect_uris := ["http://x/cb"], scope := some "read write payment account" }

/-- A sample completed authorization code for `clientC`. -/
def acC : AuthorizationCode :=
  { code := "c0", scopes := ["read"], expires_at := 1000, client_id := "cid"
    code_challenge := "ch", redirect_uri := "http://x/cb"
    redirect_uri_provided_explicitly := true }

/-- A store holding only the completed code `acC`. -/
def storeC : Store := { auth_codes := [("c0", acC)] }

/-- The store after `clientC` exchanges `acC` for the token pair
`("at1", "rt1")` at time 0. -/
def storeAfterExchange : Store :=
  (InMemoryOAuthProvider.exchange_authorization_code cfgC clientC acC "at1" "rt1" 0 storeC).2

/-- A sample refresh token held by `clientC`. -/
def rtC : RefreshToken :=
  { token := "rt1", client_id := "cid", scopes := ["read", "write"], expires_at := 90000 }

/-- A store holding only the refresh token `rtC`. -/
def storeR : Store := { refresh_tokens := [("rt1", rtC)] }

/-- Sample `/authorize` parameters whose scope list contains the
non-whitelisted scope `"bogus"`. -/
def paramsBadScope : AuthorizationParams :=
  { scopes := some ["read", "bogus"], redirect_uri := "http://x/cb"
    redirect_uri_provided_explicitly := true, code_challenge := "ch", state := none }

/-- Sample `/authorize` parameters carrying `state="abc"`. -/
def paramsWithState : AuthorizationParams :=
  { scopes := some ["read"], redirect_uri := "http://x/cb"
    redirect_uri_provided_explicitly := true, code_challenge := "ch"
    state := some "abc" }

/-- The store after `GoogleOAuthProvider.authorize` accepted `paramsWithState`
with temp-key `"t"`: it holds a pending record whose `_original_state` is
`"abc"`. -/
def storeGooglePending : Store :=
  match GoogleOAuthProvider.authorize cfgC (some "gid") clientC paramsWithState "t" 0 {} with
  | .ok r => r.2
  | .error _ => {}

/-- The store after `InMemoryOAuthProvider.authorize` accepted
`paramsWithState` with temp-key `"t"`: it holds the `pending_t` record and the
`state_t` record carrying `"abc"`. -/
def storeLocalPending : Store :=
  match InMemoryOAuthProvider.authorize cfgC clientC paramsWithState "t" 0 {} with
  | .ok r => r.2
  | .error _ => {}

/-- The store after the first `/oauth/consent/approve` for temp-key `"t"`
consumed the pending record of `storeGooglePending`. -/
def storeAfterFirstConsent : Store :=
  (oauth_consent_approve cfgC (some "t") true "c1" 0 storeGooglePending).2

/-- An authorization-code record that is already expired at time 10. -/
def expiredPendingC : AuthorizationCode :=
  { code := "t", scopes := ["read"], expires_at := 5, client_id := "cid"
    code_challenge := "ch", redirect_uri := "http://x/cb"
    redirect_uri_provided_explicitly := true }

/-- A store holding one expired pending authorization entry, one expired
completed code, one live access token and one expired refresh token. -/
def storeC8 : Store :=
  { auth_codes := [("pending_t", expiredPendingC), ("c9", { expiredPendingC with code := "c9" })]
    access_tokens := [("at1", { token := "at1", client_id := "cid", scopes := ["read"], expires_at := 50 })]
    refresh_tokens := [("rt1", { token := "rt1", client_id := "cid", scopes := ["read"], expires_at := 5 })] }

/-- A raw client record with no `scope` field. -/
def clientJsonNoScope : ClientJson :=
  { client_id := "c9", redirect_uris := ["http://x/cb"] }

/-- A registration-time client whose `scope` is `None`. -/
def clientNoScope : OAuthClientInformationFull :=
  { client_id := "c9r", redirect_uris := ["http://x/cb"], scope := none }

/-- A pending authorization record carrying the caller's state `"abc"` as its
`_original_state` attribute (as the federated adapters store it). -/
def pendingWithOrig : AuthorizationCode :=
  { code := "t", scopes := ["read"], expires_at := 600, client_id := "cid"
    code_challenge := "ch", redirect_uri := "http://x/cb"
    redirect_uri_provided_explicitly := true, orig_state := some "abc" }

/-- The separate `state_<temp>` record the local adapter stores for state
`"abc"` (the state lives in the `code` field). -/
def stateEntryC : AuthorizationCode :=
  { code := "abc", scopes := [], expires_at := 600, client_id := "cid"
    code_challenge := "", redirect_uri := "http://x/cb"
    redirect_uri_provided_explicitly := false }

/-- A store carrying, for temp-key `"t"`, both a pending record with attached
original state and a `state_t` record. -/
def storeBothPending : Store :=
  { auth_codes := [("pending_t", pendingWithOrig), ("state_t", stateEntryC)] }

/-! ### Dictionary lemmas -/

theorem lookupA_eraseA_self {α : Type} (k : String) (l : List (String × α)) :
    lookupA k (eraseA k l) = none := by
  induction l with
  | nil => rfl
  | cons p rest ih =>
    by_cases hp : p.1 = k
    · simpa [eraseA, hp] using ih
    · simpa [eraseA, lookupA, hp] using ih

theorem lookupA_eraseA_ne {α : Type} {k k' : String} (l : List (String × α))
    (h : k' ≠ k) : lookupA k' (eraseA k l) = lookupA k' l := by
  induction l with
  | nil => rfl
  | cons p rest ih =>
    by_cases hp : p.1 = k
    · have ha : ¬ p.1 = k' := fun hc => h (hc ▸ hp)
      simp [eraseA, hp, lookupA, ha, ih, Ne.symm h]
    · simp [eraseA, hp, lookupA, ih]

theorem lookupA_insertA_self {α : Type} (k : String) (v : α) (l : List (String × α)) :
    lookupA k (insertA k v l) = some v := by
  simp [insertA, lookupA]

theorem lookupA_insertA_ne {α : Type} {k k' : String} (v : α) (l : List (String × α))
    (h : k' ≠ k) : lookupA k' (insertA k v l) = lookupA k' l := by
  have hstep : lookupA k' (insertA k v l) =
      if k = k' then some v else lookupA k' (eraseA k l) := rfl
  rw [hstep, if_neg (fun hc => h hc.symm), lookupA_eraseA_ne l h]

theorem lookupA_eraseA_insertA {α : Type} {k k' : String} (v : α)
    (l : List (String × α)) (h : k ≠ k') :
    lookupA k (eraseA k' (insertA k v l)) = some v := by
  rw [lookupA_eraseA_ne _ h, lookupA_insertA_self]

/-- The `pending_<temp>` and `state_<temp>` keys of the same temp-key are
distinct (their lengths differ). -/
theorem pending_key_ne_state_key (tk : String) :
    ("pending_" ++ tk) ≠ ("state_" ++ tk) := by
  intro h
  have hlen := congrArg String.length h
  rw [String.length_append, String.length_append] at hlen
  have h8 : ("pending_" : String).length = 8 := rfl
  have h6 : ("state_" : String).length = 6 := rfl
  rw [h8, h6] at hlen
  omega

/-! ### Shared facts about the token-endpoint operations -/

/-- `exchange_authorization_code` always leaves the store without the
exchanged code (it deletes it when present; other updates touch only the
token maps). -/
theorem exchange_deletes_code (cfg : ProviderConfig)
    (client : OAuthClientInformationFull) (ac : AuthorizationCode)
    (access_token refresh_token : String) (now : Int) (s : Store) :
    lookupA ac.code
      ((InMemoryOAuthProvider.exchange_authorization_code cfg client ac
        access_token refresh_token now s).2).auth_codes = none := by
  unfold InMemoryOAuthProvider.exchange_authorization_code
  cases h : lookupA ac.code s.auth_codes with
  | none =>
    simp [Store.add_access_token, Store.add_refresh_token, Store.delete_auth_code, h]
  | some v =>
    simp [Store.add_access_token, Store.add_refresh_token, Store.delete_auth_code, h,
      lookupA_eraseA_self]

/-- A code that is absent from the store is rejected by
`load_authorization_code`, which leaves the store unchanged. -/
theorem load_authorization_code_of_absent (client : OAuthClientInformationFull)
    (code : String) (now : Int) (s : Store)
    (h : lookupA code s.auth_codes = none) :
    InMemoryOAuthProvider.load_authorization_code client code now s = (none, s) := by
  unfold InMemoryOAuthProvider.load_authorization_code
  by_cases hp : code.startsWith "pending_" <;> simp [hp, h]

/-! ### The claims -/

/-- C1: after one successful `/token` exchange of an authorization code, the
code is deleted from the store, and `load_authorization_code` subsequently
returns no record for it — so any replayed exchange of the same code fails
with `invalid_grant`. -/
theorem C1_code_one_time_use (cfg : ProviderConfig)
    (client : OAuthClientInformationFull) (ac : AuthorizationCode)
    (access_token refresh_token : String) (now later : Int) (s : Store) :
    lookupA ac.code
      ((InMemoryOAuthProvider.exchange_authorization_code cfg client ac
        access_token refresh_token now s).2).auth_codes = none ∧
    (InMemoryOAuthProvider.load_authorization_code client ac.code later
      ((InMemoryOAuthProvider.exchange_authorization_code cfg client ac
        access_token refresh_token now s).2)).1 = none := by
  refine ⟨exchange_deletes_code cfg client ac access_token refresh_token now s, ?_⟩
  rw [load_authorization_code_of_absent client ac.code later _
    (exchange_deletes_code cfg client ac access_token refresh_token now s)]

/-- C2 counterexample: after `clientC` exchanged code `"c0"` for the access
token `"at1"`, a replayed presentation of `"c0"` is rejected, yet `"at1"` —
issued from that very code — is still in the store: no revocation happens. -/
theorem C2_counterexample :
    (InMemoryOAuthProvider.load_authorization_code clientC "c0" 0 storeAfterExchange).1
        = none ∧
    lookupA "at1" storeAfterExchange.access_tokens ≠ none ∧
    lookupA "rt1" storeAfterExchange.refresh_tokens ≠ none := by decide

/-- C2 (amended): presenting an already-consumed authorization code a second
time is rejected (`load_authorization_code` returns no record) and leaves the
store completely unchanged: the access and refresh tokens issued from the
code remain valid, and nothing is revoked. -/
theorem C2_replay_rejected_without_revocation (cfg : ProviderConfig)
    (client : OAuthClientInformationFull) (ac : AuthorizationCode)
    (access_token refresh_token : String) (now later : Int) (s : Store) :
    InMemoryOAuthProvider.load_authorization_code client ac.code later
        ((InMemoryOAuthProvider.exchange_authorization_code cfg client ac
          access_token refresh_token now s).2)
      = (none,
        (InMemoryOAuthProvider.exchange_authorization_code cfg client ac
          access_token refresh_token now s).2) ∧
    (lookupA access_token
      ((InMemoryOAuthProvider.exchange_authorization_code cfg client ac
        access_token refresh_token now s).2).access_tokens).isSome = true ∧
    (lookupA refresh_token
      ((InMemoryOAuthProvider.exchange_authorization_code cfg client ac
        access_token refresh_token now s).2).refresh_tokens).isSome = true := by
  refine ⟨load_authorization_code_of_absent client ac.code later _
    (exchange_deletes_code cfg client ac access_token refresh_token now s), ?_, ?_⟩
  · unfold InMemoryOAuthProvider.exchange_authorization_code
    simp [Store.add_access_token, Store.add_refresh_token, Store.delete_auth_code,
      lookupA_insertA_self]
  · unfold InMemoryOAuthProvider.exchange_authorization_code
    simp [Store.add_access_token, Store.add_refresh_token, Store.delete_auth_code,
      lookupA_insertA_self]

/-- C3: after a refresh exchange the old refresh token is gone from the store
(and rejected by `load_refresh_token`), while the new access token and the
new refresh token are both present — the successful branch of the
all-or-nothing rotation contract. -/
theorem C3_refresh_rotation (cfg : ProviderConfig)
    (client : OAuthClientInformationFull) (rt : RefreshToken)
    (requested_scopes : Option (List String))
    (new_access new_refresh : String) (now later : Int) (s : Store)
    (h : new_refresh ≠ rt.token) :
    lookupA rt.token
      ((InMemoryOAuthProvider.exchange_refresh_token cfg client rt requested_scopes
        new_access new_refresh now s).2).refresh_tokens = none ∧
    (lookupA new_refresh
      ((InMemoryOAuthProvider.exchange_refresh_token cfg client rt requested_scopes
        new_access new_refresh now s).2).refresh_tokens).isSome = true ∧
    (lookupA new_access
      ((InMemoryOAuthProvider.exchange_refresh_token cfg client rt requested_scopes
        new_access new_refresh now s).2).access_tokens).isSome = true ∧
    (InMemoryOAuthProvider.load_refresh_token client rt.token later
      ((InMemoryOAuthProvider.exchange_refresh_token cfg client rt requested_scopes
        new_access new_refresh now s).2)).1 = none := by
  have hsym : rt.token ≠ new_refresh := Ne.symm h
  unfold InMemoryOAuthProvider.exchange_refresh_token
    InMemoryOAuthProvider.load_refresh_token
  simp only [Store.add_access_token, Store.add_refresh_token, Store.remove_refresh_token]
  by_cases hc : (lookupA rt.token s.refresh_tokens).isSome = true
  · simp [lookupA_insertA_ne _ _ hsym, hc, lookupA_eraseA_self,
      lookupA_eraseA_ne _ h, lookupA_insertA_self]
  · have hnone : lookupA rt.token s.refresh_tokens = none := by
      cases hx : lookupA rt.token s.refresh_tokens <;> simp [hx] at hc ⊢
    simp [lookupA_insertA_ne _ _ hsym, hnone, lookupA_insertA_self]

/-- C3 witness: concrete rotation of `rtC` by `clientC` with fresh pair
`("at2", "rt2")`. -/
theorem C3_refresh_rotation_witness :
    ("rt2" : String) ≠ rtC.token ∧
    (lookupA rtC.token
      ((InMemoryOAuthProvider.exchange_refresh_token cfgC clientC rtC none
        "at2" "rt2" 0 storeR).2).refresh_tokens = none ∧
    (lookupA "rt2"
      ((InMemoryOAuthProvider.exchange_refresh_token cfgC clientC rtC none
        "at2" "rt2" 0 storeR).2).refresh_tokens).isSome = true ∧
    (lookupA "at2"
      ((InMemoryOAuthProvider.exchange_refresh_token cfgC clientC rtC none
        "at2" "rt2" 0 storeR).2).access_tokens).isSome = true ∧
    (InMemoryOAuthProvider.load_refresh_token clientC rtC.token 1
      ((InMemoryOAuthProvider.exchange_refresh_token cfgC clientC rtC none
        "at2" "rt2" 0 storeR).2)).1 = none) :=
  ⟨by decide, C3_refresh_rotation cfgC clientC rtC none "at2" "rt2" 0 1 storeR (by decide)⟩

/-- C5: the scopes stored on both tokens minted by a refresh exchange are a
subset of the scopes of the refresh token being exchanged, whether scopes
were explicitly requested or omitted. -/
theorem C5_refresh_scope_subset (cfg : ProviderConfig)
    (client : OAuthClientInformationFull) (rt : RefreshToken)
    (requested_scopes : Option (List String))
    (new_access new_refresh : String) (now : Int) (s : Store)
    (h : new_refresh ≠ rt.token) :
    (∃ atok, lookupA new_access
        ((InMemoryOAuthProvider.exchange_refresh_token cfg client rt requested_scopes
          new_access new_refresh now s).2).access_tokens = some atok ∧
        atok.scopes ⊆ rt.scopes) ∧
    (∃ rtok, lookupA new_refresh
        ((InMemoryOAuthProvider.exchange_refresh_token cfg client rt requested_scopes
          new_access new_refresh now s).2).refresh_tokens = some rtok ∧
        rtok.scopes ⊆ rt.scopes) := by
  have hsym : rt.token ≠ new_refresh := Ne.symm h
  have hfil : ∀ rs : List String,
      (rs.filter (fun x => rt.scopes.contains x)) ⊆ rt.scopes := by
    intro rs x hx
    have hmem := List.mem_filter.mp hx
    simpa using hmem.2
  have hself : rt.scopes ⊆ rt.scopes := fun x hx => hx
  unfold InMemoryOAuthProvider.exchange_refresh_token
  simp only [Store.add_access_token, Store.add_refresh_token, Store.remove_refresh_token]
  cases requested_scopes with
  | none =>
    by_cases hc : (lookupA rt.token s.refresh_tokens).isSome = true
    · simp only [lookupA_insertA_ne _ _ hsym, hc, if_true]
      exact ⟨⟨_, lookupA_insertA_self _ _ _, hself⟩,
             ⟨_, lookupA_eraseA_insertA _ _ h, hself⟩⟩
    · simp only [lookupA_insertA_ne _ _ hsym, hc, if_false]
      exact ⟨⟨_, lookupA_insertA_self _ _ _, hself⟩,
             ⟨_, lookupA_insertA_self _ _ _, hself⟩⟩
  | some rs =>
    have hgr : (if rs.isEmpty then rt.scopes
        else rs.filter (fun x => rt.scopes.contains x)) ⊆ rt.scopes := by
      by_cases he : rs.isEmpty
      · rw [if_pos he]; exact hself
      · rw [if_neg he]; exact hfil rs
    by_cases hc : (lookupA rt.token s.refresh_tokens).isSome = true
    · simp only [lookupA_insertA_ne _ _ hsym, hc, if_true]
      exact ⟨⟨_, lookupA_insertA_self _ _ _, hgr⟩,
             ⟨_, lookupA_eraseA_insertA _ _ h, hgr⟩⟩
    · simp only [lookupA_insertA_ne _ _ hsym, hc, if_false]
      exact ⟨⟨_, lookupA_insertA_self _ _ _, hgr⟩,
             ⟨_, lookupA_insertA_self _ _ _, hgr⟩⟩

/-- C5 witness: concrete refresh of `rtC` (scopes `["read","write"]`)
requesting `["write","payment"]` yields tokens scoped to `["write"]`. -/
theorem C5_refresh_scope_subset_witness :
    ("rt2" : String) ≠ rtC.token ∧
    ((∃ atok, lookupA "at2"
        ((InMemoryOAuthProvider.exchange_refresh_token cfgC clientC rtC
          (some ["write", "payment"]) "at2" "rt2" 0 storeR).2).access_tokens = some atok ∧
        atok.scopes ⊆ rtC.scopes) ∧
    (∃ rtok, lookupA "rt2"
        ((InMemoryOAuthProvider.exchange_refresh_token cfgC clientC rtC
          (some ["write", "payment"]) "at2" "rt2" 0 storeR).2).refresh_tokens = some rtok ∧
        rtok.scopes ⊆ rtC.scopes)) :=
  ⟨by decide, C5_refresh_scope_subset cfgC clientC rtC (some ["write", "payment"])
    "at2" "rt2" 0 storeR (by decide)⟩

/-- `validate_scopes` either returns only whitelisted scopes or falls back to
the configured defaults; it never reports an error. -/
theorem validate_scopes_whitelist_or_default (cfg : ProviderConfig)
    (req : Option (List String)) :
    (∀ x ∈ validate_scopes cfg req, x ∈ cfg.valid_scopes) ∨
      validate_scopes cfg req = cfg.default_scopes := by
  cases req with
  | none => exact .inr rfl
  | some rs =>
    have hred : validate_scopes cfg (some rs) =
        if rs.isEmpty then cfg.default_scopes
        else if (rs.filter (fun x => cfg.valid_scopes.contains x)).isEmpty then
          cfg.default_scopes
        else rs.filter (fun x => cfg.valid_scopes.contains x) := rfl
    rw [hred]
    by_cases he : rs.isEmpty
    · rw [if_pos he]; exact .inr rfl
    · rw [if_neg he]
      by_cases hv : (rs.filter (fun x => cfg.valid_scopes.contains x)).isEmpty
      · rw [if_pos hv]; exact .inr rfl
      · rw [if_neg hv]
        left
        intro x hx
        have hmem := List.mem_filter.mp hx
        simpa using hmem.2

/-- C4 counterexample: an `/authorize` request asking for
`["read", "bogus"]` — where `"bogus"` is not whitelisted — does not fail: it
succeeds with the invalid scope silently filtered out (granted scope
`"read"`). -/
theorem C4_counterexample :
    (InMemoryOAuthProvider.authorize cfgC clientC paramsBadScope "tk" 0 {}).toOption.map
        (fun r => r.1.scope) = some "read" ∧
    ∀ e : AuthorizeError,
      InMemoryOAuthProvider.authorize cfgC clientC paramsBadScope "tk" 0 {} ≠ .error e := by
  refine ⟨by decide, fun e hcontra => ?_⟩
  have hok : (InMemoryOAuthProvider.authorize cfgC clientC paramsBadScope "tk" 0 {}).toOption
      = none := by rw [hcontra]; rfl
  revert hok
  decide

/-- C4 (amended): a request whose scope list contains a non-whitelisted scope
does not fail with `invalid_scope`.  Whenever the `redirect_uri` is
registered, `authorize` succeeds, storing a pending record whose scopes are
`validate_scopes` of the request — the whitelist-filtered requested scopes, or
the configured defaults when none survive.  Only an unregistered
`redirect_uri` makes `authorize` fail. -/
theorem C4_invalid_scopes_filtered (cfg : ProviderConfig)
    (client : OAuthClientInformationFull) (params : AuthorizationParams)
    (temp_key : String) (now : Int) (s : Store)
    (hredir : params.redirect_uri ∈ client.redirect_uris) :
    ∃ page s', InMemoryOAuthProvider.authorize cfg client params temp_key now s
        = .ok (page, s') ∧
      (∃ pd, lookupA ("pending_" ++ temp_key) s'.auth_codes = some pd ∧
        pd.scopes = validate_scopes cfg params.scopes) ∧
      ((∀ x ∈ validate_scopes cfg params.scopes, x ∈ cfg.valid_scopes) ∨
        validate_scopes cfg params.scopes = cfg.default_scopes) := by
  unfold InMemoryOAuthProvider.authorize
  simp only [Store.save_auth_code]
  rw [if_neg (not_not_intro hredir)]
  cases hstate : params.state with
  | none =>
    exact ⟨_, _, rfl, ⟨_, lookupA_insertA_self _ _ _, rfl⟩,
      validate_scopes_whitelist_or_default cfg params.scopes⟩
  | some st =>
    dsimp only
    by_cases hse : st = ""
    · rw [if_pos hse]
      exact ⟨_, _, rfl, ⟨_, lookupA_insertA_self _ _ _, rfl⟩,
        validate_scopes_whitelist_or_default cfg params.scopes⟩
    · rw [if_neg hse]
      exact ⟨_, _, rfl,
        ⟨_, (lookupA_insertA_ne _ _ (pending_key_ne_state_key temp_key)).trans
          (lookupA_insertA_self _ _ _), rfl⟩,
        validate_scopes_whitelist_or_default cfg params.scopes⟩

/-- C4 witness: concrete instantiation of the amended theorem at the request
with scope list `["read", "bogus"]`. -/
theorem C4_invalid_scopes_filtered_witness :
    paramsBadScope.redirect_uri ∈ clientC.redirect_uris ∧
    (∃ page s', InMemoryOAuthProvider.authorize cfgC clientC paramsBadScope "tk" 0 {}
        = .ok (page, s') ∧
      (∃ pd, lookupA ("pending_" ++ "tk") s'.auth_codes = some pd ∧
        pd.scopes = validate_scopes cfgC paramsBadScope.scopes) ∧
      ((∀ x ∈ validate_scopes cfgC paramsBadScope.scopes, x ∈ cfgC.valid_scopes) ∨
        validate_scopes cfgC paramsBadScope.scopes = cfgC.default_scopes)) :=
  ⟨by decide, C4_invalid_scopes_filtered cfgC clientC paramsBadScope "tk" 0 {} (by decide)⟩

/-- C6 counterexample: a Google-adapter `/authorize` that carried
`state="abc"` stores it on the pending record, yet the denial redirect back
to the client's `redirect_uri` carries no `state` parameter at all. -/
theorem C6_counterexample :
    (lookupA ("pending_" ++ "t") storeGooglePending.auth_codes).map
        (fun p => p.orig_state) = some (some "abc") ∧
    (GoogleOAuthProvider.complete_authorization cfgC "t" false "c1" 0
        storeGooglePending).1 =
      some { base := "http://x/cb"
             params := [("error", "access_denied"),
                        ("error_description", "User denied authorization")] } ∧
    ("state", "abc") ∉
      [(("error" : String), ("access_denied" : String)),
       ("error_description", "User denied authorization")] := by decide

/-- C6 (amended): when a pending authorization and its stored state exist for
a temp-key, the local adapter's final redirect carries the stored state both
on approval and on denial, and the Google/Azure adapters' redirect carries
the attached original state on approval — but their denial redirect carries
no `state` parameter at all. -/
theorem C6_state_propagation (cfg : ProviderConfig) (tk S new_code : String)
    (now : Int) (s : Store) (p st_entry : AuthorizationCode)
    (hp : lookupA ("pending_" ++ tk) s.auth_codes = some p)
    (hst : lookupA ("state_" ++ tk) s.auth_codes = some st_entry) :
    (∃ r, (InMemoryOAuthProvider.complete_authorization cfg tk true new_code now s).1
        = some r ∧ ("state", st_entry.code) ∈ r.params) ∧
    (∃ r, (InMemoryOAuthProvider.complete_authorization cfg tk false new_code now s).1
        = some r ∧ ("state", st_entry.code) ∈ r.params) ∧
    (p.orig_state = some S →
      ∃ r, (GoogleOAuthProvider.complete_authorization cfg tk true new_code now s).1
        = some r ∧ ("state", S) ∈ r.params) ∧
    (∃ r, (GoogleOAuthProvider.complete_authorization cfg tk false new_code now s).1
        = some r ∧ ∀ v, ("state", v) ∉ r.params) := by
  refine ⟨?_, ?_, ?_, ?_⟩
  · simp [InMemoryOAuthProvider.complete_authorization, hp, hst,
      construct_redirect_uri, Store.save_auth_code, Store.delete_auth_code]
  · simp [InMemoryOAuthProvider.complete_authorization, hp, hst,
      construct_redirect_uri, Store.save_auth_code, Store.delete_auth_code]
  · intro horig
    simp [GoogleOAuthProvider.complete_authorization, hp, horig, construct_redirect_uri]
  · simp [GoogleOAuthProvider.complete_authorization, hp, construct_redirect_uri]

/-- C6 witness: concrete instantiation at a store carrying the pending record
(with original state `"abc"`) and the `state_t` record for temp-key `"t"`. -/
theorem C6_state_propagation_witness :
    lookupA ("pending_" ++ "t") storeBothPending.auth_codes = some pendingWithOrig ∧
    lookupA ("state_" ++ "t") storeBothPending.auth_codes = some stateEntryC ∧
    ((∃ r, (InMemoryOAuthProvider.complete_authorization cfgC "t" true "c1" 0
        storeBothPending).1 = some r ∧ ("state", stateEntryC.code) ∈ r.params) ∧
    (∃ r, (InMemoryOAuthProvider.complete_authorization cfgC "t" false "c1" 0
        storeBothPending).1 = some r ∧ ("state", stateEntryC.code) ∈ r.params) ∧
    (pendingWithOrig.orig_state = some "abc" →
      ∃ r, (GoogleOAuthProvider.complete_authorization cfgC "t" true "c1" 0
        storeBothPending).1 = some r ∧ ("state", "abc") ∈ r.params) ∧
    (∃ r, (GoogleOAuthProvider.complete_authorization cfgC "t" false "c1" 0
        storeBothPending).1 = some r ∧ ∀ v, ("state", v) ∉ r.params)) :=
  ⟨by decide, by decide,
    C6_state_propagation cfgC "t" "abc" "c1" 0 storeBothPending
      pendingWithOrig stateEntryC (by decide) (by decide)⟩

/-- C7 counterexample: after the consent for temp-key `"t"` was already
processed once, submitting `/oauth/consent/approve` again yields HTTP 400
("expired or invalid"), not the claimed HTTP 200 already-processed page. -/
theorem C7_counterexample :
    (oauth_consent_approve cfgC (some "t") true "c2" 0 storeAfterFirstConsent).1 =
      .html 400 "Error: Authorization request expired or invalid" ∧
    ((oauth_consent_approve cfgC (some "t") true "c2" 0
      storeAfterFirstConsent).1).statusCode ≠ 200 := by decide

/-- C7 (amended): when the pending record of a temp-key has already been
consumed, the local `/oauth/authorize/approve` handler answers HTTP 200 with
the already-processed page, but the federated `/oauth/consent/approve`
handler answers HTTP 400 with an expired-or-invalid error page. -/
theorem C7_duplicate_consent (cfg : ProviderConfig) (tk new_code : String)
    (approved : Bool) (now : Int) (s : Store)
    (hp : lookupA ("pending_" ++ tk) s.auth_codes = none) :
    (oauth_authorize_approve cfg (some tk) approved new_code now s).1
        = .html 200 "Authorization Already Processed" ∧
    (oauth_consent_approve cfg (some tk) approved new_code now s).1
        = .html 400 "Error: Authorization request expired or invalid" := by
  constructor
  · simp [oauth_authorize_approve, InMemoryOAuthProvider.complete_authorization, hp]
  · simp [oauth_consent_approve, GoogleOAuthProvider.complete_authorization, hp]

/-- C7 witness: concrete instantiation at the store in which the consent for
temp-key `"t"` was already processed. -/
theorem C7_duplicate_consent_witness :
    lookupA ("pending_" ++ "t") storeAfterFirstConsent.auth_codes = none ∧
    ((oauth_authorize_approve cfgC (some "t") true "c2" 0 storeAfterFirstConsent).1
        = .html 200 "Authorization Already Processed" ∧
    (oauth_consent_approve cfgC (some "t") true "c2" 0 storeAfterFirstConsent).1
        = .html 400 "Error: Authorization request expired or invalid") :=
  ⟨by decide, C7_duplicate_consent cfgC "t" "c2" true 0 storeAfterFirstConsent (by decide)⟩

/-- C8 counterexample: the pending authorization entry `pending_t` is already
expired at time 10, yet the sweep leaves it in the store — pending entries
are exempted from expiry removal. -/
theorem C8_counterexample :
    expiredPendingC.expires_at < 10 ∧
    lookupA "pending_t" ((storeC8.clear_expired_tokens 10).auth_codes)
      = some expiredPendingC ∧
    lookupA "c9" ((storeC8.clear_expired_tokens 10).auth_codes) = none ∧
    lookupA "rt1" ((storeC8.clear_expired_tokens 10).refresh_tokens) = none := by decide

/-- C8 (amended): the sweep removes exactly the expired access tokens, the
expired refresh tokens, and the expired auth-code records whose key does NOT
start with `"pending_"`; pending authorization entries are never removed, and
clients are untouched. -/
theorem C8_sweep_characterization (s : Store) (now : Int) :
    (∀ k c, (k, c) ∈ (s.clear_expired_tokens now).auth_codes ↔
        ((k, c) ∈ s.auth_codes ∧
          (startswith k "pending_" = true ∨ ¬ c.expires_at < now))) ∧
    (∀ k t, (k, t) ∈ (s.clear_expired_tokens now).access_tokens ↔
        ((k, t) ∈ s.access_tokens ∧ ¬ t.expires_at < now)) ∧
    (∀ k t, (k, t) ∈ (s.clear_expired_tokens now).refresh_tokens ↔
        ((k, t) ∈ s.refresh_tokens ∧ ¬ t.expires_at < now)) ∧
    (s.clear_expired_tokens now).clients = s.clients := by
  refine ⟨fun k c => ?_, fun k t => ?_, fun k t => ?_, rfl⟩ <;>
    simp [Store.clear_expired_tokens, List.mem_filter]

/-- C9 counterexample: a client record loaded with no `scope` field (and one
registered with `scope=None`) gets the hard-coded string
`"read write payment account"`, which differs from the configured
default-scope string (`OAUTH_DEFAULT_SCOPES` defaults to `"read"`). -/
theorem C9_counterexample :
    (load_client clientJsonNoScope).scope = some "read write payment account" ∧
    ((lookupA "c9r" ((Store.register_client {} clientNoScope).clients)).map
        (fun c => c.scope)) = some (some "read write payment account") ∧
    String.intercalate " " OAUTH_DEFAULT_SCOPES ≠ "read write payment account" := by
  decide

/-- C9 (amended): a missing `scope` on a client record — at load time or at
registration — is backfilled with the hard-coded string
`"read write payment account"`, irrespective of the configured default
scopes; a present `scope` is kept unchanged. -/
theorem C9_scope_backfill_hardcoded (cj : ClientJson)
    (client : OAuthClientInformationFull) (s : Store) :
    (cj.scope = none → (load_client cj).scope = some "read write payment account") ∧
    (∀ sc, cj.scope = some sc → (load_client cj).scope = some sc) ∧
    (client.scope = none →
      (lookupA client.client_id ((s.register_client client).clients)).map
          (fun c => c.scope) = some (some "read write payment account")) ∧
    (∀ sc, client.scope = some sc →
      lookupA client.client_id ((s.register_client client).clients) = some client) := by
  refine ⟨?_, ?_, ?_, ?_⟩
  · intro hnone
    simp [load_client, hnone]
  · intro sc hsc
    simp [load_client, hsc]
  · intro hnone
    simp [Store.register_client, hnone, lookupA_insertA_self]
  · intro sc hsc
    simp [Store.register_client, hsc, lookupA_insertA_self]

/-- C9 witness: concrete instantiation at a scope-less loaded record and a
scope-less registered client. -/
theorem C9_scope_backfill_hardcoded_witness :
    clientJsonNoScope.scope = none ∧
    (load_client clientJsonNoScope).scope = some "read write payment account" ∧
    clientNoScope.scope = none ∧
    (lookupA "c9r" ((Store.register_client {} clientNoScope).clients)).map
        (fun c => c.scope) = some (some "read write payment account") :=
  ⟨rfl, (C9_scope_backfill_hardcoded clientJsonNoScope clientNoScope {}).1 rfl, rfl,
    (C9_scope_backfill_hardcoded clientJsonNoScope clientNoScope {}).2.2.1 rfl⟩

/-- C10: `complete_authorization` never checks the pending record's
`expires_at`: even when the pending record is already expired, approval
succeeds — it returns a redirect and stores a freshly minted authorization
code. -/
theorem C10_approval_ignores_pending_expiry (cfg : ProviderConfig)
    (tk new_code : String) (now : Int) (s : Store) (p : AuthorizationCode)
    (hp : lookupA ("pending_" ++ tk) s.auth_codes = some p)
    (hexpired : p.expires_at < now) :
    ((InMemoryOAuthProvider.complete_authorization cfg tk true new_code now s).1).isSome
        = true ∧
    (lookupA new_code
      ((InMemoryOAuthProvider.complete_authorization cfg tk true new_code now
        s).2).auth_codes).isSome = true := by
  cases hst : lookupA ("state_" ++ tk) s.auth_codes with
  | none =>
    simp [InMemoryOAuthProvider.complete_authorization, hp, hst,
      Store.save_auth_code, Store.delete_auth_code, lookupA_insertA_self]
  | some st_entry =>
    simp [InMemoryOAuthProvider.complete_authorization, hp, hst,
      Store.save_auth_code, Store.delete_auth_code, lookupA_insertA_self]

/-- C10 witness: concrete approval of the expired pending record
`pending_t` at time 10 (it expired at 5). -/
theorem C10_approval_ignores_pending_expiry_witness :
    lookupA ("pending_" ++ "t") storeC8.auth_codes = some expiredPendingC ∧
    expiredPendingC.expires_at < 10 ∧
    (((InMemoryOAuthProvider.complete_authorization cfgC "t" true "c1" 10
        storeC8).1).isSome = true ∧
    (lookupA "c1"
      ((InMemoryOAuthProvider.complete_authorization cfgC "t" true "c1" 10
        storeC8).2).auth_codes).isSome = true) :=
  ⟨by decide, by decide,
    C10_approval_ignores_pending_expiry cfgC "t" "c1" 10 storeC8 expiredPendingC
      (by decide) (by decide)⟩

end OAuthServer
